import Mathlib

/-!
Shallow embedding of the file_plugins core of the spectromicroscopy
repository (src/mantis_xray/file_plugins/__init__.py), together with
theorems settling the frozen claims about it.

Conventions of the embedding:
* numpy 3-D arrays (the "data cube", indexed row, column, energy-slice)
  are modelled by the structure Cube: the shape fields mirror
  numpy's shape tuple and the data is a nested list of rationals
  (machine floats are modelled by exact rationals; none of the claims
  depends on rounding).
* Python exceptions (NameError, ValueError, IndexError) become the
  PyErr error type and fallible code returns Except PyErr.
* scipy.interpolate.griddata is the black-box scattered-data resampler:
  it is a parameter of type GDCall -> List Q, where a GDCall records
  exactly the arguments the source passes (source points, values,
  target grid, method).
* in-place mutation of the caller's stack object becomes explicit
  state passing of a StackObject value.
-/

namespace FilePlugins

/-- Python runtime errors that the embedded code can raise. -/
inductive PyErr where
  | nameError
  | valueError
  | indexError
deriving DecidableEq

/-- Model of a numpy 3-D array indexed (row, column, energy slice).
The rows/cols/depth fields mirror the numpy shape tuple; DataWF below
ties them to the nested data list. -/
structure Cube where
  rows : Nat
  cols : Nat
  depth : Nat
  data : List (List (List ℚ))
deriving DecidableEq

/-- Value at position (row rr, column j, slice k), defaulting to 0 out
of bounds (numpy indexing in the source is always in bounds). -/
def cubeAt (c : Cube) (rr j k : Nat) : ℚ :=
  ((c.data.getD rr []).getD j []).getD k 0

/-- Shape well-formedness of the nested data list. -/
def DataWF (d : List (List (List ℚ))) (r c e : Nat) : Prop :=
  d.length = r ∧ ∀ row ∈ d, row.length = c ∧ ∀ cell ∈ row, cell.length = e

instance (d : List (List (List ℚ))) (r c e : Nat) : Decidable (DataWF d r c e) := by
  unfold DataWF; infer_instance

/-- A cube whose shape fields agree with its data. -/
def CubeWF (cb : Cube) (r c e : Nat) : Prop :=
  cb.rows = r ∧ cb.cols = c ∧ cb.depth = e ∧ DataWF cb.data r c e

instance (cb : Cube) (r c e : Nat) : Decidable (CubeWF cb r c e) := by
  unfold CubeWF; infer_instance

/-- numpy.pad(a, ((0,0),(0,k),(0,0)), mode=constant, constant_values=0):
append k zero columns on the right of every row (source lines 228, 230). -/
def padCols (cb : Cube) (k : Nat) : Cube :=
  { rows := cb.rows, cols := cb.cols + k, depth := cb.depth,
    data := cb.data.map (fun row => row ++ List.replicate k (List.replicate cb.depth 0)) }

/-- numpy.vstack((a,b)) on two cubes whose column counts have been
equalised: concatenation along the row axis (source line 231). -/
def vstack (a b : Cube) : Cube :=
  { rows := a.rows + b.rows, cols := a.cols, depth := a.depth,
    data := a.data ++ b.data }

/-- One iteration of the stitching loop in load (source lines 227-231):
if the accumulated cube is wider, zero-pad the new slice's columns;
elif the new slice is wider, zero-pad the accumulated cube; then
vstack the new slice's rows below the accumulated cube. -/
def stitchStep (full temp : Cube) : Cube :=
  if temp.cols < full.cols then
    vstack full (padCols temp (full.cols - temp.cols))
  else if full.cols < temp.cols then
    vstack (padCols full (temp.cols - full.cols)) temp
  else
    vstack full temp

/-! Dispatcher: splitext, the plugin record, and identify. -/

/-- Index of the last occurrence of character ch in cs, if any. -/
def rfindIdx (ch : Char) (cs : List Char) : Option Nat :=
  (List.range cs.length).foldl (fun acc i => if cs[i]? = some ch then some i else acc) none

/-- Extension part of os.path.splitext with posix rules (source line
272 applies it to the filename): the suffix starting at the last dot,
provided that dot lies after the last slash and at least one character
strictly between the last slash and that dot is not itself a dot
(so dotfiles such as .bashrc yield the empty extension). -/
def splitextExt (p : String) : String :=
  let cs := p.data
  match rfindIdx '.' cs with
  | none => ""
  | some d =>
    let s0 : Nat := match rfindIdx '/' cs with
      | none => 0
      | some s => s + 1
    if (match rfindIdx '/' cs with | none => true | some s => decide (s < d)) then
      if (List.range d).any (fun k => decide (s0 ≤ k) && decide (cs[k]? ≠ some '.')) then
        String.mk (cs.drop d)
      else ""
    else ""

/-- A numpy coordinate array: 1-dimensional (shared across slices) or
2-dimensional (one coordinate column per slice). -/
inductive Coord where
  | one : List ℚ → Coord
  | two : List (List ℚ) → Coord
deriving DecidableEq

/-- Opaque sub-selection identifiers passed to a load call. -/
abbrev Sel := Nat

/-- Opaque format-specific options blob passed through to plugins. -/
abbrev Json := Nat

/-- The caller-supplied data_stack object at the granularity the
orchestrator touches it: the data cube, the coordinate arrays, the
instrument coordinate arrays, the interpolated cube, and the
n_cols / n_rows counters (fields assigned at source lines 232-239). -/
structure StackObject where
  absdata : Cube
  x_dist : Coord
  y_dist : Coord
  x_dist_instr : Coord
  y_dist_instr : Coord
  absdata_interpolated : Option Cube
  n_cols : Nat
  n_rows : Nat
deriving DecidableEq

/-- A registered file plugin at the granularity the dispatcher and
orchestrator consume it: title, claimed extension globs, the identify
content probe, and the read capability. In-place mutation of the
caller's stack object by read is modelled as a state transformer. -/
structure Plugin where
  title : String
  extension : List String
  identify : String → Bool
  read : String → StackObject → Option Sel → Option Json → StackObject

/-- Dispatcher loop (source lines 273-282): scan plugins in
registration order; on an extension match run the content probe; on a
confirmed probe return that plugin; on a failed probe mark the plugin
ineligible and continue, or stop the whole scan if this plugin was
already marked ineligible (the source's break). The eligibility list
flag = [True]*len(plugins) is modelled as a function from plugin
indices to Bool (indices outside the registry are never consulted). -/
def identifyAux (filename e : String) : List Plugin → Nat → (Nat → Bool) → Option Plugin
  | [], _, _ => none
  | P :: rest, i, flag =>
    if ("*" ++ e) ∈ P.extension then
      if P.identify filename then some P
      else if flag i then
        identifyAux filename e rest (i + 1) (fun j => if j = i then false else flag j)
      else none
    else identifyAux filename e rest (i + 1) flag

/-- identify (source lines 266-284): extract the file extension, then
scan the registry with every plugin initially eligible; the None
result models the "Error! unknown file type." fall-through. -/
def identify (ps : List Plugin) (filename : String) : Option Plugin :=
  identifyAux filename (splitextExt filename) ps 0 (fun _ => true)

/-- Modelled from the spec's description of the intended scan (claims
C1 and C10): probe every extension-matching plugin in registration
order until one confirms, with no early stop. The claim theorems
compare identify against this definition. -/
def identifyNoEarlyStop (filename e : String) : List Plugin → Option Plugin
  | [] => none
  | P :: rest =>
    if ("*" ++ e) ∈ P.extension then
      if P.identify filename then some P
      else identifyNoEarlyStop filename e rest
    else identifyNoEarlyStop filename e rest

/-! Registry discovery (source lines 55-72). -/

/-- A candidate plugin module as discovery sees it after it loaded
successfully: its title and whether its namespace exposes a read
function (the source's test is 'read' in dir(module)). -/
structure PluginModule where
  title : String
  hasRead : Bool
deriving DecidableEq

/-- The outcome of attempting to load one candidate module: either the
module, or an ImportError with its message (the only exception the
source's try/except handles). -/
inductive LoadCandidate where
  | ok : PluginModule → LoadCandidate
  | importError : String → LoadCandidate
deriving DecidableEq

/-- Discovery loop (source lines 55-72): iterate over the candidate
modules in scan order; a candidate that raises ImportError is logged
and skipped; a loaded module is appended to the registry only if it
exposes read, otherwise it is skipped entirely. -/
def plugins : List LoadCandidate → List PluginModule
  | [] => []
  | LoadCandidate.ok m :: rest =>
      if m.hasRead then m :: plugins rest else plugins rest
  | LoadCandidate.importError _ :: rest => plugins rest

/-! Grid resampler: interpolate_absdata_flat (source lines 155-203). -/

/-- Interpolation method selector passed to griddata. -/
inductive GDMethod where
  | nearest
  | cubic
deriving DecidableEq

/-- Source-points argument of a griddata call: either a tuple of two
1-D coordinate arrays (source line 188) or a stacked 2-D point array
(source line 201). -/
inductive GDPoints where
  | tupleXY : List ℚ → List ℚ → GDPoints
  | stacked : List (List ℚ) → GDPoints
deriving DecidableEq

/-- One scipy.interpolate.griddata invocation exactly as the source
makes it: source points, source values, the two target-grid
components, and the method. The resampler itself is a black box: the
embedding receives a function mapping a call to its flattened output
values. -/
structure GDCall where
  points : GDPoints
  values : List ℚ
  gridX : List (List ℚ)
  gridY : List (List ℚ)
  method : GDMethod
deriving DecidableEq

/-- Minimum of a list of rationals (0 on the empty list, which numpy
instead rejects; see aminE). -/
def qmin : List ℚ → ℚ
  | [] => 0
  | a :: t => t.foldl min a

/-- Maximum of a list of rationals. -/
def qmax : List ℚ → ℚ
  | [] => 0
  | a :: t => t.foldl max a

/-- numpy min of an array: ValueError on an empty array. -/
def aminE (l : List ℚ) : Except PyErr ℚ :=
  if l.isEmpty then Except.error PyErr.valueError else Except.ok (qmin l)

/-- numpy max of an array: ValueError on an empty array. -/
def amaxE (l : List ℚ) : Except PyErr ℚ :=
  if l.isEmpty then Except.error PyErr.valueError else Except.ok (qmax l)

/-- numpy column extraction m[:, j]: IndexError when the column index
is out of range. -/
def colE (m : List (List ℚ)) (j : Nat) : Except PyErr (List ℚ) :=
  m.mapM (fun row => match row[j]? with
    | some v => Except.ok v
    | none => Except.error PyErr.indexError)

/-- Target-grid bounds for one coordinate descriptor (source lines
160-168): min and max of the whole array when it is 1-D, of its
column 0 when it is 2-D. -/
def coordRange (dist : Coord) : Except PyErr (ℚ × ℚ) :=
  match dist with
  | Coord.one xs =>
      match aminE xs, amaxE xs with
      | Except.ok lo, Except.ok hi => Except.ok (lo, hi)
      | Except.error e, _ => Except.error e
      | _, Except.error e => Except.error e
  | Coord.two m =>
      match colE m 0 with
      | Except.error e => Except.error e
      | Except.ok c0 =>
        match aminE c0, amaxE c0 with
        | Except.ok lo, Except.ok hi => Except.ok (lo, hi)
        | Except.error e, _ => Except.error e
        | _, Except.error e => Except.error e

/-- numpy.linspace(a, b, n) with its endpoint default, over exact
rationals. -/
def linspace (a b : ℚ) (n : Nat) : List ℚ :=
  if n = 0 then []
  else if n = 1 then [a]
  else (List.range n).map (fun i => a + (b - a) * (i : ℚ) / ((n : ℚ) - 1))

/-- Component xx of numpy.meshgrid(x, y) with the default xy indexing:
shape (len y, len x), every row a copy of x. -/
def meshgridXX (x y : List ℚ) : List (List ℚ) := y.map (fun _ => x)

/-- Component yy of numpy.meshgrid(x, y): row j is constant at y j. -/
def meshgridYY (x y : List ℚ) : List (List ℚ) := y.map (fun v => x.map (fun _ => v))

/-- Column-major flattening of slice i of the cube: the source's
absdata[:, :, i].T.reshape(-1) at line 185. -/
def sliceValsT (c : Cube) (i : Nat) : List ℚ :=
  (List.range c.cols).flatMap (fun j => (List.range c.rows).map (fun rr => cubeAt c rr j i))

/-- Row-major flattening of slice i of the cube: the source's
absdata[:, :, i].ravel() at line 200. -/
def sliceValsRavel (c : Cube) (i : Nat) : List ℚ :=
  (List.range c.rows).flatMap (fun rr => (List.range c.cols).map (fun j => cubeAt c rr j i))

/-- numpy.zeros_like(absdata) (source line 157). -/
def zerosLike (c : Cube) : Cube :=
  { rows := c.rows, cols := c.cols, depth := c.depth,
    data := List.replicate c.rows (List.replicate c.cols (List.replicate c.depth 0)) }

/-- One row of a slice assignment: cell j of the row receives entry j
of the matrix row at position i (lockstep recursion over the row and
the matrix row). -/
def setSliceRow (i : Nat) : List ℚ → List (List ℚ) → List (List ℚ)
  | _, [] => []
  | mrow, cell :: cs => cell.set i (mrow.getD 0 0) :: setSliceRow i (mrow.drop 1) cs

/-- Row-by-row part of a slice assignment. -/
def setSliceData (i : Nat) : List (List ℚ) → List (List (List ℚ)) → List (List (List ℚ))
  | _, [] => []
  | m, row :: rest => setSliceRow i (m.getD 0 []) row :: setSliceData i (m.drop 1) rest

/-- Slice assignment absdata_dist_corr[:, :, i] = m (source lines 188
and 201): position i of the cell at (rr, j) receives entry (rr, j)
of the matrix m. -/
def setSlice (c : Cube) (i : Nat) (m : List (List ℚ)) : Cube :=
  { c with data := setSliceData i m c.data }

/-- Splitting a flat list into r chunks of c entries each: the data
part of a numpy reshape to shape (r, c). -/
def chunkAux (c : Nat) : Nat → List ℚ → List (List ℚ)
  | 0, _ => []
  | r + 1, l => l.take c :: chunkAux c r (l.drop c)

/-- numpy reshape of a flat array to shape (r, c): ValueError unless
the length matches exactly. -/
def reshapeTo (r c : Nat) (l : List ℚ) : Except PyErr (List (List ℚ)) :=
  if l.length = r * c then Except.ok (chunkAux c r l) else Except.error PyErr.valueError

/-- Reference to a possibly-unbound Python local variable: NameError
when it was never assigned. -/
def pyLocal (o : Option α) : Except PyErr α :=
  match o with
  | some v => Except.ok v
  | none => Except.error PyErr.nameError

/-- Slice loop of the 1-D branch (source lines 183-188): for each
slice, call griddata with the raw coordinate tuple as source points,
the column-major slice values, the shared target grid and the nearest
method; reshape the output to (x_values, y_values) and assign it into
slice i of the accumulator. Arguments after the grid are the current
slice index, the number of slices still to process, and the
accumulator. loopCall is the griddata call the loop makes for one
slice on the target grid (xx, yy). -/
def loopCall (absdata : Cube) (xs ys : List ℚ) (xx yy : List (List ℚ)) (i : Nat) : GDCall :=
  { points := GDPoints.tupleXY xs ys, values := sliceValsT absdata i,
    gridX := xx, gridY := yy, method := GDMethod.nearest }

def interpLoop1D (gd : GDCall → List ℚ) (absdata : Cube) (xs ys : List ℚ)
    (xx yy : List (List ℚ)) (xv yv : Nat) : Nat → Nat → Cube → Except PyErr Cube
  | _, 0, corr => Except.ok corr
  | i, n + 1, corr =>
      match reshapeTo xv yv (gd (loopCall absdata xs ys xx yy i)) with
      | Except.error e => Except.error e
      | Except.ok m =>
          interpLoop1D gd absdata xs ys xx yy xv yv (i + 1) n (setSlice corr i m)

/-- Per-slice bounds refresh from column i of a 2-D descriptor
(source lines 191-194): min and max of m[:, i], wrapped in some to
mark the local as now bound. -/
def coordColRange (m : List (List ℚ)) (i : Nat) : Except PyErr (Option (ℚ × ℚ)) :=
  match colE m i with
  | Except.error e => Except.error e
  | Except.ok ci =>
    match aminE ci, amaxE ci with
    | Except.ok lo, Except.ok hi => Except.ok (some (lo, hi))
    | Except.error e, _ => Except.error e
    | _, Except.error e => Except.error e

/-- Slice loop of the 2-D branch (source lines 190-201): per slice,
refresh the per-slice bounds from column i of each 2-D descriptor
(bounds for a 1-D descriptor are never assigned and stay unbound
across iterations), build the per-slice target grid, then evaluate
griddata on original_points with the cubic method. original_points is
assigned only in the other branch of the source, so the reference
here is to an unbound local; unbound locals are modelled as Option
values threaded through the loop and a reference to one raises
NameError via pyLocal. -/
def interpLoop2D (gd : GDCall → List ℚ) (absdata : Cube) (x_dist y_dist : Coord)
    (originalPoints : Option (List (List ℚ))) (xv yv : Nat) :
    Nat → Nat → Cube × Option (ℚ × ℚ) × Option (ℚ × ℚ) → Except PyErr Cube
  | _, 0, (corr, _, _) => Except.ok corr
  | i, n + 1, (corr, xb0, yb0) =>
      match (match x_dist with
             | Coord.two m => coordColRange m i
             | Coord.one _ => Except.ok xb0) with
      | Except.error e => Except.error e
      | Except.ok xb =>
        match (match y_dist with
               | Coord.two m => coordColRange m i
               | Coord.one _ => Except.ok yb0) with
        | Except.error e => Except.error e
        | Except.ok yb =>
          match pyLocal xb with
          | Except.error e => Except.error e
          | Except.ok xbv =>
            match pyLocal yb with
            | Except.error e => Except.error e
            | Except.ok ybv =>
              match pyLocal originalPoints with
              | Except.error e => Except.error e
              | Except.ok op =>
                match reshapeTo xv yv
                    (gd { points := GDPoints.stacked op,
                          values := sliceValsRavel absdata i,
                          gridX := meshgridXX (linspace xbv.1 xbv.2 xv) (linspace ybv.1 ybv.2 yv),
                          gridY := meshgridYY (linspace xbv.1 xbv.2 xv) (linspace ybv.1 ybv.2 yv),
                          method := GDMethod.cubic }) with
                | Except.error e => Except.error e
                | Except.ok m =>
                    interpLoop2D gd absdata x_dist y_dist originalPoints xv yv (i + 1) n
                      (setSlice corr i m, xb, yb)

/-- interpolate_absdata_flat (source lines 155-203), the production
grid resampler that load applies to the populated cube. Parameters:
the black-box scattered resampler gd, the cube, the two coordinate
descriptors, and the flat switch (load calls it with the default
flat = true). In the 1-D/1-D case with flat set, the reshapes of the
coordinate arrays at lines 178-179 may raise ValueError; the meshgrid
of line 182 and the original_points assembly of line 180 are dead
values in that branch (line 188 interpolates from the raw tuple onto
the shared grid) and cannot raise, so they are not recorded. -/
def interpolate_absdata_flat (gd : GDCall → List ℚ) (absdata : Cube)
    (x_dist y_dist : Coord) (flat : Bool) : Except PyErr Cube :=
  match coordRange x_dist with
  | Except.error e => Except.error e
  | Except.ok xr =>
    match coordRange y_dist with
    | Except.error e => Except.error e
    | Except.ok yr =>
      let xx := meshgridXX (linspace xr.1 xr.2 absdata.rows) (linspace yr.1 yr.2 absdata.cols)
      let yy := meshgridYY (linspace xr.1 xr.2 absdata.rows) (linspace yr.1 yr.2 absdata.cols)
      match x_dist, y_dist with
      | Coord.one xs, Coord.one ys =>
          if flat then
            match reshapeTo absdata.rows absdata.cols xs with
            | Except.error e => Except.error e
            | Except.ok _xx_new =>
              match reshapeTo absdata.rows absdata.cols ys with
              | Except.error e => Except.error e
              | Except.ok _yy_new =>
                interpLoop1D gd absdata xs ys xx yy absdata.rows absdata.cols 0
                  absdata.depth (zerosLike absdata)
          else
            interpLoop1D gd absdata xs ys xx yy absdata.rows absdata.cols 0
              absdata.depth (zerosLike absdata)
      | _, _ =>
          interpLoop2D gd absdata x_dist y_dist none absdata.rows absdata.cols 0
            absdata.depth (zerosLike absdata, none, none)

/-- Shared uniform target grid of the 1-D branch, xx component (source
lines 160-172): linspace over [min, max] of each coordinate array,
with resolution the cube's row count along x and column count along y.
-/
def sharedGridXX (absdata : Cube) (xs ys : List ℚ) : List (List ℚ) :=
  meshgridXX (linspace (qmin xs) (qmax xs) absdata.rows)
    (linspace (qmin ys) (qmax ys) absdata.cols)

/-- Shared uniform target grid of the 1-D branch, yy component. -/
def sharedGridYY (absdata : Cube) (xs ys : List ℚ) : List (List ℚ) :=
  meshgridYY (linspace (qmin xs) (qmax xs) absdata.rows)
    (linspace (qmin ys) (qmax ys) absdata.cols)

/-- The griddata call the 1-D branch makes for slice i: the raw
coordinate tuple as source points, the column-major slice values, the
shared uniform target grid, and the nearest-neighbor method. -/
def nearestCall (absdata : Cube) (xs ys : List ℚ) (i : Nat) : GDCall :=
  { points := GDPoints.tupleXY xs ys, values := sliceValsT absdata i,
    gridX := sharedGridXX absdata xs ys, gridY := sharedGridYY absdata xs ys,
    method := GDMethod.nearest }

/-! Load orchestrator (source lines 206-240). -/

/-- numpy.arange(n) as the rational coordinate list 0..n-1 (source
lines 234-235). -/
def arangeQ (n : Nat) : List ℚ := (List.range n).map (fun k => (k : ℚ))

/-- Cube-population part of load (source lines 216-237), after a
plugin has been chosen. mkTemp models the external
data_stack.data(stack_object.data_struct) scratch-object constructor.
With no selection or a single selection the plugin reads straight
into the target object. With more than one selection the plugin reads
the first selection into the target object, then reads each further
selection into the scratch object (threaded through the loop, as the
source reuses one temp_stack) and stitches the cubes with stitchStep;
afterwards x_dist and y_dist are reassigned to numpy.arange over the
merged cube's row and column extents, and n_cols / n_rows to the
lengths of those arrays. An empty selection list falls into the
multi-selection branch and raises IndexError at selection[0], as the
source would. -/
def loadPopulate (mkTemp : StackObject → StackObject) (P : Plugin) (filename : String)
    (stack : StackObject) (selection : Option (List Sel)) (json : Option Json) :
    Except PyErr StackObject :=
  match selection with
  | none => Except.ok (P.read filename stack none json)
  | some sel =>
    if sel.length = 1 then
      Except.ok (P.read filename stack sel.head? json)
    else
      match sel with
      | [] => Except.error PyErr.indexError
      | s0 :: rest =>
        let st1 := P.read filename stack (some s0) json
        let temp0 := mkTemp st1
        let stitched := rest.foldl
          (fun acc s =>
            let tempNext := P.read filename acc.2 (some s) none
            (stitchStep acc.1 tempNext.absdata, tempNext))
          (st1.absdata, temp0)
        let xd := arangeQ stitched.1.rows
        let yd := arangeQ stitched.1.cols
        Except.ok { st1 with
                    absdata := stitched.1, x_dist := Coord.one xd, y_dist := Coord.one yd,
                    n_cols := xd.length, n_rows := yd.length }

/-- load (source lines 206-240): resolve the plugin (through identify
when none is given; the dispatcher finding none yields the null
result), populate the cube via loadPopulate, then always resample the
populated cube through the grid resampler with the object's
instrument coordinate arrays and store the result in the separate
absdata_interpolated field. Except.ok none models the early
return None of line 213 with the caller's object untouched; the
returned StackObject is the final state of the caller's object. -/
def load (gd : GDCall → List ℚ) (mkTemp : StackObject → StackObject)
    (ps : List Plugin) (filename : String) (stack : StackObject)
    (plugin : Option Plugin) (selection : Option (List Sel)) (json : Option Json) :
    Except PyErr (Option StackObject) :=
  match (match plugin with
         | none => identify ps filename
         | some P => some P) with
  | none => Except.ok none
  | some P =>
    match loadPopulate mkTemp P filename stack selection json with
    | Except.error e => Except.error e
    | Except.ok st =>
      match interpolate_absdata_flat gd st.absdata st.x_dist_instr st.y_dist_instr true with
      | Except.error e => Except.error e
      | Except.ok interp =>
          Except.ok (some { st with absdata_interpolated := some interp })

/-- Sample cube for the concrete witnesses. -/
def sampleCube : Cube := ⟨1, 1, 1, [[[0]]]⟩

/-- Sample caller-side stack object for the concrete witnesses. -/
def sampleStack : StackObject :=
  { absdata := sampleCube, x_dist := Coord.one [0], y_dist := Coord.one [0],
    x_dist_instr := Coord.one [0], y_dist_instr := Coord.one [0],
    absdata_interpolated := none, n_cols := 1, n_rows := 1 }

/-- Sample plugin whose read drops a (1,2,1) cube into the target. -/
def samplePluginR : Plugin :=
  { title := "R", extension := ["*.hdr"], identify := fun _ => true,
    read := fun _ st _ _ => { st with absdata := ⟨1, 2, 1, [[[1], [2]]]⟩ } }

/-- Merged stack expected from loading two selections with
samplePluginR. -/
def sampleMergedStack : StackObject :=
  { sampleStack with
    absdata := ⟨2, 2, 1, [[[1], [2]], [[1], [2]]]⟩,
    x_dist := Coord.one (arangeQ 2), y_dist := Coord.one (arangeQ 2),
    n_cols := 2, n_rows := 2 }

/-- Sample plugin whose read drops a (1,1,1) cube and matching
instrument coordinates into the target. -/
def samplePluginQ : Plugin :=
  { title := "Q", extension := ["*.hdr"], identify := fun _ => true,
    read := fun _ st _ _ =>
      { st with
        absdata := ⟨1, 1, 1, [[[4]]]⟩,
        x_dist_instr := Coord.one [0], y_dist_instr := Coord.one [0] } }

/-- Stack state after samplePluginQ's read. -/
def sampleLoadedStack : StackObject :=
  { sampleStack with
    absdata := ⟨1, 1, 1, [[[4]]]⟩,
    x_dist_instr := Coord.one [0], y_dist_instr := Coord.one [0] }

/-! Theorems: helper lemmas first, then the claim theorems and their witnesses. -/

theorem padCols_wf {cb : Cube} {r c e : Nat} (h : CubeWF cb r c e) (k : Nat) :
    CubeWF (padCols cb k) r (c + k) e := by
  obtain ⟨hr, hc, he, hd, hrow⟩ := h
  refine ⟨hr, by simp [padCols, hc], by simp [padCols, he], ?_, ?_⟩
  · simp [padCols, hd]
  · intro row hrowm
    simp only [padCols, List.mem_map] at hrowm
    obtain ⟨row0, hrow0, rfl⟩ := hrowm
    obtain ⟨hlen, hcell⟩ := hrow row0 hrow0
    constructor
    · simp [hlen, hc]
    · intro cell hcellm
      rcases List.mem_append.mp hcellm with hl | hr2
      · exact hcell cell hl
      · rw [List.eq_of_mem_replicate hr2]
        simp [he]

/-- Claim C4: for every load call with a selection list of length
greater than 1, stitching two per-selection cubes of shapes (R1,C1,E)
and (R2,C2,E) with C1 < C2 yields a merged cube of shape (R1+R2, C2, E)
whose first R1 rows have their trailing (C2-C1) columns equal to the
fill value 0 and whose last R2 rows equal the second cube's data; a
column-count mismatch is never an error, it is resolved by zero-padding
the narrower cube before row-axis concatenation. -/
theorem stitchStep_pad_concat (full temp : Cube) (R1 C1 R2 C2 E : Nat)
    (hf : CubeWF full R1 C1 E) (ht : CubeWF temp R2 C2 E) (hC : C1 < C2) :
    (stitchStep full temp).rows = R1 + R2
  ∧ (stitchStep full temp).cols = C2
  ∧ (stitchStep full temp).depth = E
  ∧ CubeWF (stitchStep full temp) (R1 + R2) C2 E
  ∧ (∀ r < R1, (stitchStep full temp).data.getD r []
        = full.data.getD r [] ++ List.replicate (C2 - C1) (List.replicate E 0))
  ∧ (stitchStep full temp).data.drop R1 = temp.data := by
  obtain ⟨hfr, hfc, hfe, hfd, hfrow⟩ := hf
  obtain ⟨htr, htc, hte, htd, htrow⟩ := ht
  have hcond1 : ¬ temp.cols < full.cols := by omega
  have hcond2 : full.cols < temp.cols := by omega
  have hpad : CubeWF (padCols full (temp.cols - full.cols)) R1 C2 E := by
    have := @padCols_wf full R1 C1 E ⟨hfr, hfc, hfe, hfd, hfrow⟩ (temp.cols - full.cols)
    have harith : C1 + (temp.cols - full.cols) = C2 := by omega
    rwa [harith] at this
  obtain ⟨hpr, hpc, hpe, hpd, hprow⟩ := hpad
  have hstep : stitchStep full temp
      = vstack (padCols full (temp.cols - full.cols)) temp := by
    simp [stitchStep, hcond1, hcond2]
  refine ⟨?_, ?_, ?_, ?_, ?_, ?_⟩
  · rw [hstep]; simp [vstack, hpr, htr]
  · rw [hstep]; simp [vstack, hpc]
  · rw [hstep]; simp [vstack, hpe]
  · rw [hstep]
    refine ⟨by simp [vstack, hpr, htr], by simp [vstack, hpc], by simp [vstack, hpe], ?_, ?_⟩
    · simp [vstack, hpd, htd]
    · intro row hrowm
      rcases List.mem_append.mp hrowm with hl | hr2
      · exact hprow row hl
      · exact htrow row hr2
  · intro r hrR1
    rw [hstep]
    have hlen : (padCols full (temp.cols - full.cols)).data.length = R1 := hpd
    have hget : (vstack (padCols full (temp.cols - full.cols)) temp).data.getD r []
        = (padCols full (temp.cols - full.cols)).data.getD r [] := by
      simp only [vstack, List.getD_eq_getElem?_getD]
      rw [List.getElem?_append_left (by omega)]
    rw [hget]
    simp only [padCols, List.getD_eq_getElem?_getD, List.getElem?_map]
    have hr' : r < full.data.length := by omega
    rw [List.getElem?_eq_getElem hr']
    have hce : full.depth = E := hfe
    have harith : temp.cols - full.cols = C2 - C1 := by omega
    simp [hce, harith]
  · rw [hstep]
    simp only [vstack]
    have hlen : (padCols full (temp.cols - full.cols)).data.length = R1 := hpd
    rw [List.drop_left' hlen]

/-- Witness for C4 at concrete cubes of shapes (1,1,1) and (1,2,1). -/
theorem stitchStep_pad_concat_witness :
    (stitchStep ⟨1,1,1,[[[5]]]⟩ ⟨1,2,1,[[[6],[7]]]⟩).rows = 1 + 1
  ∧ (stitchStep ⟨1,1,1,[[[5]]]⟩ ⟨1,2,1,[[[6],[7]]]⟩).cols = 2
  ∧ (stitchStep ⟨1,1,1,[[[5]]]⟩ ⟨1,2,1,[[[6],[7]]]⟩).depth = 1
  ∧ CubeWF (stitchStep ⟨1,1,1,[[[5]]]⟩ ⟨1,2,1,[[[6],[7]]]⟩) (1 + 1) 2 1
  ∧ (∀ r < 1, (stitchStep ⟨1,1,1,[[[5]]]⟩ ⟨1,2,1,[[[6],[7]]]⟩).data.getD r []
        = (⟨1,1,1,[[[5]]]⟩ : Cube).data.getD r [] ++ List.replicate (2 - 1) (List.replicate 1 0))
  ∧ (stitchStep ⟨1,1,1,[[[5]]]⟩ ⟨1,2,1,[[[6],[7]]]⟩).data.drop 1 = (⟨1,2,1,[[[6],[7]]]⟩ : Cube).data :=
  stitchStep_pad_concat ⟨1,1,1,[[[5]]]⟩ ⟨1,2,1,[[[6],[7]]]⟩ 1 1 1 2 1
    (by decide) (by decide) (by decide)

theorem identifyAux_eq_noEarlyStop (filename e : String) (ps : List Plugin) (i : Nat)
    (flag : Nat → Bool) (h : ∀ j, i ≤ j → flag j = true) :
    identifyAux filename e ps i flag = identifyNoEarlyStop filename e ps := by
  induction ps generalizing i flag with
  | nil => rfl
  | cons P rest ih =>
    simp only [identifyAux, identifyNoEarlyStop]
    by_cases hm : ("*" ++ e) ∈ P.extension
    · simp only [hm, if_true]
      by_cases hp : P.identify filename = true
      · simp [hp]
      · have hflag : flag i = true := h i (Nat.le_refl i)
        simp only [hp, if_false, Bool.false_eq_true, hflag, if_true]
        exact ih (i + 1) (fun j => if j = i then false else flag j)
          (fun j hj => by
            have hne : j ≠ i := by omega
            simp only [hne, if_false]
            exact h j (by omega))
    · simp only [hm, if_false]
      exact ih (i + 1) flag (fun j hj => h j (by omega))

theorem identifyNoEarlyStop_eq_find (filename e : String) (ps : List Plugin) :
    identifyNoEarlyStop filename e ps
      = ps.find? (fun P => decide (("*" ++ e) ∈ P.extension) && P.identify filename) := by
  induction ps with
  | nil => rfl
  | cons P rest ih =>
    simp only [identifyNoEarlyStop]
    by_cases hm : ("*" ++ e) ∈ P.extension
    · by_cases hp : P.identify filename = true
      · rw [List.find?_cons_of_pos _ (by simp [hm, hp])]
        simp [hm, hp]
      · rw [List.find?_cons_of_neg _ (by simp [hm, hp])]
        simp [hm, hp, ih]
    · rw [List.find?_cons_of_neg _ (by simp [hm])]
      simp [hm, ih]

theorem identify_eq_find (ps : List Plugin) (filename : String) :
    identify ps filename
      = ps.find? (fun P => decide (("*" ++ splitextExt filename) ∈ P.extension)
          && P.identify filename) :=
  (identifyAux_eq_noEarlyStop filename (splitextExt filename) ps 0 (fun _ => true)
      (fun _ _ => rfl)).trans
    (identifyNoEarlyStop_eq_find filename (splitextExt filename) ps)

/-- Claim C10: the early-stop branch in identify (the break taken when
an already-ineligible extension-matching plugin probes false again) is
unreachable: each plugin index is visited at most once and its flag
starts true, so identify probes every extension-matching plugin in
registration order until one confirms and never terminates the scan
early. Formally, identify coincides with the scan with no early stop. -/
theorem identify_never_stops_early (ps : List Plugin) (filename : String) :
    identify ps filename = identifyNoEarlyStop filename (splitextExt filename) ps :=
  identifyAux_eq_noEarlyStop filename (splitextExt filename) ps 0 (fun _ => true)
    (fun _ _ => rfl)

/-- Claim C1: for every registry and filename, identify returns the
first plugin in registration order whose extension set contains the
filename's extension and whose content probe returns true; in
particular, for extension-matching plugins A (probe false) and B
(probe true) registered in order A,B, identify returns B. -/
theorem identify_first_confirming (ps : List Plugin) (filename : String) :
    identify ps filename
      = ps.find? (fun P => decide (("*" ++ splitextExt filename) ∈ P.extension)
          && P.identify filename)
  ∧ ∀ A B : Plugin,
      ("*" ++ splitextExt filename) ∈ A.extension → A.identify filename = false →
      ("*" ++ splitextExt filename) ∈ B.extension → B.identify filename = true →
      identify [A, B] filename = some B := by
  refine ⟨identify_eq_find ps filename, ?_⟩
  intro A B hA hAp hB hBp
  rw [identify_eq_find [A, B] filename]
  rw [List.find?_cons_of_neg _ (by simp [hA, hAp])]
  rw [List.find?_cons_of_pos _ (by simp [hB, hBp])]

/-- Witness for C1: two plugins both claiming *.h5, the first probing
false and the second probing true; identify returns the second. -/
theorem identify_first_confirming_witness :
    identify [⟨"A", ["*.h5"], fun _ => false, fun _ st _ _ => st⟩,
              ⟨"B", ["*.h5"], fun _ => true, fun _ st _ _ => st⟩] "scan.h5"
      = some ⟨"B", ["*.h5"], fun _ => true, fun _ st _ _ => st⟩ :=
  (identify_first_confirming
      [⟨"A", ["*.h5"], fun _ => false, fun _ st _ _ => st⟩,
       ⟨"B", ["*.h5"], fun _ => true, fun _ st _ _ => st⟩] "scan.h5").2
    ⟨"A", ["*.h5"], fun _ => false, fun _ st _ _ => st⟩
    ⟨"B", ["*.h5"], fun _ => true, fun _ st _ _ => st⟩
    (by decide) rfl (by decide) rfl

/-- Claim C2: for every filename whose extension is contained in no
registered plugin's extension set, identify returns None (the "not
found" result): it never probes non-matching plugins (the result holds
for arbitrary probe functions) and raises no exception. -/
theorem identify_no_ext_match (ps : List Plugin) (filename : String)
    (h : ∀ P ∈ ps, ("*" ++ splitextExt filename) ∉ P.extension) :
    identify ps filename = none := by
  rw [identify_eq_find]
  rw [List.find?_eq_none]
  intro P hP
  simp [h P hP]

/-- Witness for C2: a registry claiming only *.hdr against a .xim
file. -/
theorem identify_no_ext_match_witness :
    identify [⟨"SDF", ["*.hdr"], fun _ => true, fun _ st _ _ => st⟩] "scan.xim" = none :=
  identify_no_ext_match [⟨"SDF", ["*.hdr"], fun _ => true, fun _ st _ _ => st⟩] "scan.xim"
    (by decide)

/-- Claim C9: every provider present in the registry after discovery
exposes the read capability (candidates lacking read are excluded
entirely, never partially registered), and a candidate whose load
fails with ImportError is skipped without aborting discovery of the
remaining candidates. -/
theorem plugins_read_capable :
    (∀ cs : List LoadCandidate, ∀ m ∈ plugins cs, m.hasRead = true)
  ∧ (∀ (msg : String) (pre post : List LoadCandidate),
      plugins (pre ++ LoadCandidate.importError msg :: post) = plugins (pre ++ post)) := by
  constructor
  · intro cs
    induction cs with
    | nil => intro m hm; simp [plugins] at hm
    | cons c rest ih =>
      intro m hm
      match c with
      | LoadCandidate.ok p =>
        by_cases hr : p.hasRead = true
        · simp only [plugins, hr, if_true] at hm
          rcases List.mem_cons.mp hm with rfl | hm2
          · exact hr
          · exact ih m hm2
        · simp only [plugins, hr, Bool.false_eq_true, if_false] at hm
          exact ih m hm
      | LoadCandidate.importError s =>
        simp only [plugins] at hm
        exact ih m hm
  · intro msg pre post
    induction pre with
    | nil => simp [plugins]
    | cons c rest ih =>
      match c with
      | LoadCandidate.ok p => simp [plugins, ih]
      | LoadCandidate.importError s => simp [plugins, ih]

/-- Witness for C9: a registry built from a read-capable module, a
candidate whose import fails, and a module lacking read; the
read-capable module is registered, the failing candidate is skipped
without stopping discovery, and the module lacking read is excluded. -/
theorem plugins_read_capable_witness :
    (⟨"sdf", true⟩ : PluginModule).hasRead = true
  ∧ plugins ([LoadCandidate.ok ⟨"sdf", true⟩]
        ++ LoadCandidate.importError "h5py missing" :: [LoadCandidate.ok ⟨"tif", false⟩])
      = plugins ([LoadCandidate.ok ⟨"sdf", true⟩] ++ [LoadCandidate.ok ⟨"tif", false⟩]) :=
  ⟨plugins_read_capable.1 [LoadCandidate.ok ⟨"sdf", true⟩] ⟨"sdf", true⟩ (by decide),
   plugins_read_capable.2 "h5py missing" [LoadCandidate.ok ⟨"sdf", true⟩]
     [LoadCandidate.ok ⟨"tif", false⟩]⟩

theorem getD_drop_one {α : Type} (l : List α) (j : Nat) (dflt : α) :
    (l.drop 1).getD j dflt = l.getD (j + 1) dflt := by
  simp [List.getD_eq_getElem?_getD, List.getElem?_drop, Nat.add_comm]

theorem setSliceRow_getElem? (i : Nat) (mrow : List ℚ) (row : List (List ℚ)) (j : Nat) :
    (setSliceRow i mrow row)[j]?
      = (row[j]?).map (fun cell => cell.set i (mrow.getD j 0)) := by
  induction row generalizing mrow j with
  | nil => simp [setSliceRow]
  | cons cell cs ih =>
    match j with
    | 0 => simp [setSliceRow]
    | j + 1 =>
      simp only [setSliceRow, List.getElem?_cons_succ]
      rw [ih, getD_drop_one]

theorem setSliceData_getElem? (i : Nat) (m : List (List ℚ))
    (dl : List (List (List ℚ))) (rr : Nat) :
    (setSliceData i m dl)[rr]?
      = (dl[rr]?).map (fun row => setSliceRow i (m.getD rr []) row) := by
  induction dl generalizing m rr with
  | nil => simp [setSliceData]
  | cons row rest ih =>
    match rr with
    | 0 => simp [setSliceData]
    | rr + 1 =>
      simp only [setSliceData, List.getElem?_cons_succ]
      rw [ih, getD_drop_one]

theorem length_setSliceRow (i : Nat) (mrow : List ℚ) (row : List (List ℚ)) :
    (setSliceRow i mrow row).length = row.length := by
  induction row generalizing mrow with
  | nil => rfl
  | cons cell cs ih => simp [setSliceRow, ih]

theorem length_setSliceData (i : Nat) (m : List (List ℚ)) (dl : List (List (List ℚ))) :
    (setSliceData i m dl).length = dl.length := by
  induction dl generalizing m with
  | nil => rfl
  | cons row rest ih => simp [setSliceData, ih]

theorem mem_setSliceRow (i : Nat) (mrow : List ℚ) (row : List (List ℚ))
    (cell' : List ℚ) (h : cell' ∈ setSliceRow i mrow row) :
    ∃ cell ∈ row, ∃ v, cell' = cell.set i v := by
  induction row generalizing mrow with
  | nil => simp [setSliceRow] at h
  | cons cell cs ih =>
    simp only [setSliceRow, List.mem_cons] at h
    rcases h with rfl | h2
    · exact ⟨cell, List.mem_cons_self cell cs, mrow.getD 0 0, rfl⟩
    · obtain ⟨cell0, hc0, v, rfl⟩ := ih (mrow.drop 1) h2
      exact ⟨cell0, List.mem_cons_of_mem _ hc0, v, rfl⟩

theorem mem_setSliceData (i : Nat) (m : List (List ℚ)) (dl : List (List (List ℚ)))
    (row' : List (List ℚ)) (h : row' ∈ setSliceData i m dl) :
    ∃ row ∈ dl, ∃ mrow, row' = setSliceRow i mrow row := by
  induction dl generalizing m with
  | nil => simp [setSliceData] at h
  | cons row rest ih =>
    simp only [setSliceData, List.mem_cons] at h
    rcases h with rfl | h2
    · exact ⟨row, List.mem_cons_self row rest, m.getD 0 [], rfl⟩
    · obtain ⟨row0, hr0, mrow, rfl⟩ := ih (m.drop 1) h2
      exact ⟨row0, List.mem_cons_of_mem _ hr0, mrow, rfl⟩

theorem dataWF_setSlice {r cc d : Nat} (c : Cube) (i : Nat) (m : List (List ℚ))
    (hwf : DataWF c.data r cc d) :
    DataWF (setSlice c i m).data r cc d := by
  obtain ⟨hlen, hrow⟩ := hwf
  refine ⟨by simp [setSlice, length_setSliceData, hlen], ?_⟩
  intro row' hrow'
  obtain ⟨row, hrowm, mrow, rfl⟩ := mem_setSliceData _ _ _ _ hrow'
  obtain ⟨hrlen, hcell⟩ := hrow row hrowm
  refine ⟨by simp [length_setSliceRow, hrlen], ?_⟩
  intro cell' hcell'
  obtain ⟨cell, hcellm, v, rfl⟩ := mem_setSliceRow _ _ _ _ hcell'
  simp [hcell cell hcellm]

theorem cubeAt_setSlice {r cc d : Nat} (c : Cube) (i : Nat) (m : List (List ℚ))
    (hwf : DataWF c.data r cc d) (hi : i < d) (rr j k : Nat) :
    cubeAt (setSlice c i m) rr j k
      = if k = i ∧ rr < r ∧ j < cc then (m.getD rr []).getD j 0
        else cubeAt c rr j k := by
  obtain ⟨hlen, hrow⟩ := hwf
  simp only [cubeAt, setSlice, List.getD_eq_getElem?_getD]
  rw [setSliceData_getElem?]
  by_cases hrr : rr < r
  · have hrr' : rr < c.data.length := by omega
    rw [List.getElem?_eq_getElem hrr']
    obtain ⟨hrlen, hcell⟩ := hrow _ (List.getElem_mem hrr')
    simp only [Option.map_some', Option.getD_some]
    rw [setSliceRow_getElem?]
    by_cases hj : j < cc
    · have hj' : j < (c.data[rr]).length := by omega
      rw [List.getElem?_eq_getElem hj']
      have hclen : ((c.data[rr])[j]).length = d := hcell _ (List.getElem_mem hj')
      simp only [Option.map_some', Option.getD_some]
      by_cases hk : k = i
      · subst hk
        rw [List.getElem?_set_self (by omega)]
        simp [hrr, hj]
      · rw [List.getElem?_set_ne (fun he => hk he.symm)]
        simp [hk]
    · have hj' : (c.data[rr])[j]? = none := by
        rw [List.getElem?_eq_none_iff]; omega
      rw [hj']
      simp [hj]
  · have hrr' : c.data[rr]? = none := by
      rw [List.getElem?_eq_none_iff]; omega
    rw [hrr']
    simp [hrr]

theorem chunkAux_getD (c r : Nat) (l : List ℚ) (rr j : Nat) (hrr : rr < r) (hj : j < c) :
    ((chunkAux c r l).getD rr []).getD j 0 = l.getD (rr * c + j) 0 := by
  induction r generalizing rr l with
  | zero => omega
  | succ r ih =>
    match rr with
    | 0 =>
      simp only [chunkAux, List.getD_eq_getElem?_getD, List.getElem?_cons_zero,
        Option.getD_some]
      rw [List.getElem?_take_of_lt hj]
      simp
    | rr + 1 =>
      have h2 : rr < r := by omega
      simp only [chunkAux, List.getD_eq_getElem?_getD, List.getElem?_cons_succ]
      have hindex := ih (l.drop c) rr h2
      simp only [List.getD_eq_getElem?_getD] at hindex
      rw [hindex, List.getElem?_drop]
      have harith : c + (rr * c + j) = (rr + 1) * c + j := by ring
      rw [harith]

theorem zerosLike_dataWF (c : Cube) :
    DataWF (zerosLike c).data c.rows c.cols c.depth := by
  refine ⟨by simp [zerosLike], ?_⟩
  intro row hrow
  rw [List.eq_of_mem_replicate hrow]
  refine ⟨by simp, ?_⟩
  intro cell hcell
  rw [List.eq_of_mem_replicate hcell]
  simp

theorem interpLoop1D_spec (gd : GDCall → List ℚ) (absdata : Cube) (xs ys : List ℚ)
    (xx yy : List (List ℚ)) (xv yv dp : Nat) :
    ∀ (n i : Nat) (corr : Cube),
      DataWF corr.data xv yv dp →
      i + n ≤ dp →
      (∀ t, t < n → (gd (loopCall absdata xs ys xx yy (i + t))).length = xv * yv) →
      ∃ corr', interpLoop1D gd absdata xs ys xx yy xv yv i n corr = Except.ok corr'
        ∧ corr'.rows = corr.rows ∧ corr'.cols = corr.cols ∧ corr'.depth = corr.depth
        ∧ DataWF corr'.data xv yv dp
        ∧ ∀ rr j k, cubeAt corr' rr j k
            = if i ≤ k ∧ k < i + n ∧ rr < xv ∧ j < yv then
                (gd (loopCall absdata xs ys xx yy k)).getD (rr * yv + j) 0
              else cubeAt corr rr j k := by
  intro n
  induction n with
  | zero =>
    intro i corr hwf hle hgd
    refine ⟨corr, rfl, rfl, rfl, rfl, hwf, fun rr j k => ?_⟩
    have hfalse : ¬ (i ≤ k ∧ k < i + 0 ∧ rr < xv ∧ j < yv) := by omega
    rw [if_neg hfalse]
  | succ n ih =>
    intro i corr hwf hle hgd
    have hlen0 := hgd 0 (by omega)
    rw [Nat.add_zero] at hlen0
    have hreshape : reshapeTo xv yv (gd (loopCall absdata xs ys xx yy i))
        = Except.ok (chunkAux yv xv (gd (loopCall absdata xs ys xx yy i))) := by
      simp [reshapeTo, hlen0]
    have hstep : interpLoop1D gd absdata xs ys xx yy xv yv i (n + 1) corr
        = interpLoop1D gd absdata xs ys xx yy xv yv (i + 1) n
            (setSlice corr i (chunkAux yv xv (gd (loopCall absdata xs ys xx yy i)))) := by
      rw [interpLoop1D, hreshape]
    obtain ⟨corr', hok, hrw, hcw, hdw, hwf', hpt⟩ :=
      ih (i + 1)
        (setSlice corr i (chunkAux yv xv (gd (loopCall absdata xs ys xx yy i))))
        (dataWF_setSlice corr i _ hwf) (by omega)
        (fun t ht => by
          have hlen := hgd (t + 1) (by omega)
          have harith : i + (t + 1) = i + 1 + t := by omega
          rwa [harith] at hlen)
    refine ⟨corr', hstep.trans hok, ?_, ?_, ?_, hwf', ?_⟩
    · rw [hrw]; rfl
    · rw [hcw]; rfl
    · rw [hdw]; rfl
    · intro rr j k
      rw [hpt rr j k]
      by_cases hk1 : i + 1 ≤ k ∧ k < i + 1 + n ∧ rr < xv ∧ j < yv
      · have hcond : i ≤ k ∧ k < i + (n + 1) ∧ rr < xv ∧ j < yv := by omega
        rw [if_pos hk1, if_pos hcond]
      · rw [if_neg hk1]
        rw [cubeAt_setSlice corr i _ hwf (by omega) rr j k]
        by_cases hk2 : k = i ∧ rr < xv ∧ j < yv
        · have hcond : i ≤ k ∧ k < i + (n + 1) ∧ rr < xv ∧ j < yv := by
            obtain ⟨hki, h1, h2⟩ := hk2
            omega
          rw [if_pos hk2, if_pos hcond]
          obtain ⟨rfl, hrrv, hjv⟩ := hk2
          rw [chunkAux_getD yv xv _ rr j hrrv hjv]
        · have hcond : ¬ (i ≤ k ∧ k < i + (n + 1) ∧ rr < xv ∧ j < yv) := by omega
          rw [if_neg hk2, if_neg hcond]

theorem aminE_ok (l : List ℚ) (h : l ≠ []) : aminE l = Except.ok (qmin l) := by
  have he : l.isEmpty = false := by simp [h]
  simp [aminE, he]

theorem amaxE_ok (l : List ℚ) (h : l ≠ []) : amaxE l = Except.ok (qmax l) := by
  have he : l.isEmpty = false := by simp [h]
  simp [amaxE, he]

theorem coordRange_one (xs : List ℚ) (h : xs ≠ []) :
    coordRange (Coord.one xs) = Except.ok (qmin xs, qmax xs) := by
  simp [coordRange, aminE_ok xs h, amaxE_ok xs h]

/-- Claim C7: for every input cube and pair of 1-dimensional coordinate
descriptors (of the flattened length the source's reshape demands,
with the black-box resampler returning outputs of the grid size), the
production grid resampler builds one shared uniform target grid
spanning [min, max] of each coordinate axis with resolution equal to
the cube's row and column counts, and resamples every slice onto that
same shared grid with the nearest-neighbor scattered-interpolation
method, not the cubic one: slice i of the output is exactly the
reshaped output of the nearest-method griddata call on the shared
grid. -/
theorem interpolate_flat_1d_nearest (gd : GDCall → List ℚ) (absdata : Cube)
    (xs ys : List ℚ) (hx : xs ≠ []) (hy : ys ≠ [])
    (hlx : xs.length = absdata.rows * absdata.cols)
    (hly : ys.length = absdata.rows * absdata.cols)
    (hgd : ∀ i, (gd (nearestCall absdata xs ys i)).length
        = absdata.rows * absdata.cols) :
    ∃ corr, interpolate_absdata_flat gd absdata (Coord.one xs) (Coord.one ys) true
        = Except.ok corr
      ∧ corr.rows = absdata.rows ∧ corr.cols = absdata.cols ∧ corr.depth = absdata.depth
      ∧ ∀ i < absdata.depth, ∀ rr < absdata.rows, ∀ j < absdata.cols,
          cubeAt corr rr j i
            = (gd (nearestCall absdata xs ys i)).getD (rr * absdata.cols + j) 0 := by
  have h1 : reshapeTo absdata.rows absdata.cols xs
      = Except.ok (chunkAux absdata.cols absdata.rows xs) := by
    simp [reshapeTo, hlx]
  have h2 : reshapeTo absdata.rows absdata.cols ys
      = Except.ok (chunkAux absdata.cols absdata.rows ys) := by
    simp [reshapeTo, hly]
  have hmain : interpolate_absdata_flat gd absdata (Coord.one xs) (Coord.one ys) true
      = interpLoop1D gd absdata xs ys (sharedGridXX absdata xs ys)
          (sharedGridYY absdata xs ys) absdata.rows absdata.cols 0 absdata.depth
          (zerosLike absdata) := by
    simp only [interpolate_absdata_flat, coordRange_one xs hx, coordRange_one ys hy,
      h1, h2, sharedGridXX, sharedGridYY]
    rfl
  obtain ⟨corr', hok, hrw, hcw, hdw, hwf', hpt⟩ :=
    interpLoop1D_spec gd absdata xs ys (sharedGridXX absdata xs ys)
      (sharedGridYY absdata xs ys) absdata.rows absdata.cols absdata.depth
      absdata.depth 0 (zerosLike absdata) (zerosLike_dataWF absdata)
      (by omega) (fun t ht => hgd (0 + t))
  refine ⟨corr', hmain.trans hok, ?_, ?_, ?_, ?_⟩
  · rw [hrw]; rfl
  · rw [hcw]; rfl
  · rw [hdw]; rfl
  · intro i hi rr hrr j hj
    have hcond : 0 ≤ i ∧ i < 0 + absdata.depth ∧ rr < absdata.rows ∧ j < absdata.cols := by
      omega
    rw [hpt rr j i, if_pos hcond]
    rfl

/-- Witness for C7: a (1,1,2) cube with unit coordinate arrays and a
resampler returning a constant; both slices of the output carry the
resampler's nearest-call outputs. -/
theorem interpolate_flat_1d_nearest_witness :
    ∃ corr, interpolate_absdata_flat (fun _ => [7]) ⟨1, 1, 2, [[[2, 3]]]⟩
        (Coord.one [0]) (Coord.one [0]) true = Except.ok corr
      ∧ corr.rows = (⟨1, 1, 2, [[[2, 3]]]⟩ : Cube).rows
      ∧ corr.cols = (⟨1, 1, 2, [[[2, 3]]]⟩ : Cube).cols
      ∧ corr.depth = (⟨1, 1, 2, [[[2, 3]]]⟩ : Cube).depth
      ∧ ∀ i < (⟨1, 1, 2, [[[2, 3]]]⟩ : Cube).depth,
          ∀ rr < (⟨1, 1, 2, [[[2, 3]]]⟩ : Cube).rows,
          ∀ j < (⟨1, 1, 2, [[[2, 3]]]⟩ : Cube).cols,
          cubeAt corr rr j i
            = ((fun _ => [7]) (nearestCall ⟨1, 1, 2, [[[2, 3]]]⟩ [0] [0] i)).getD
                (rr * (⟨1, 1, 2, [[[2, 3]]]⟩ : Cube).cols + j) 0 :=
  interpolate_flat_1d_nearest (fun _ => [7]) ⟨1, 1, 2, [[[2, 3]]]⟩ [0] [0]
    (by decide) (by decide) (by decide) (by decide) (fun i => rfl)

/-- Claim C8 (code bug): with a 2-dimensional coordinate descriptor the
resampler does not compute per-slice cubic resampled output; it raises
NameError on its first slice, because original_points (source line
201) is assigned only in the 1-D flat branch, and with mixed 1-D/2-D
inputs the per-slice bounds x_min_i / y_min_i (lines 196-197) are
likewise unbound. Concrete failing run: a (1,1,1) cube with 2-D
descriptors [[0]]. -/
theorem interpolate_flat_2d_raises :
    interpolate_absdata_flat (fun _ => []) ⟨1, 1, 1, [[[1]]]⟩
      (Coord.two [[0]]) (Coord.two [[0]]) true = Except.error PyErr.nameError := by
  rfl

/-- Claim C3: for every filename and target object, a load call with no
explicit plugin first runs the dispatcher; when the dispatcher finds
no plugin, load yields the null "no data loaded" result, raises no
error, and performs no read into the target object: the outcome is
Except.ok none, the untouched-object early return, for arbitrary
plugin read functions, resampler and scratch constructor. -/
theorem load_no_plugin_null (gd : GDCall → List ℚ) (mkTemp : StackObject → StackObject)
    (ps : List Plugin) (filename : String) (stack : StackObject)
    (selection : Option (List Sel)) (json : Option Json)
    (h : identify ps filename = none) :
    load gd mkTemp ps filename stack none selection json = Except.ok none := by
  simp [load, h]

/-- Witness for C3: the dispatcher finds no plugin for a .xim file in
a registry claiming only *.hdr, and load yields the null result. -/
theorem load_no_plugin_null_witness :
    load (fun _ => []) id [⟨"SDF", ["*.hdr"], fun _ => true, fun _ st _ _ => st⟩]
      "img.xim" sampleStack none none none = Except.ok none :=
  load_no_plugin_null (fun _ => []) id
    [⟨"SDF", ["*.hdr"], fun _ => true, fun _ st _ _ => st⟩]
    "img.xim" sampleStack none none rfl

/-- Claim C5: for every load call with a selection list of length
greater than 1, after all selections are merged the target object's
coordinate arrays x_dist and y_dist are recomputed as the plain
integer index sequences 0..n-1 over the merged cube's row extent and
column extent respectively. -/
theorem load_multi_reindexes (mkTemp : StackObject → StackObject) (P : Plugin)
    (filename : String) (stack : StackObject) (sel : List Sel) (json : Option Json)
    (st' : StackObject) (hlen : 1 < sel.length)
    (hpop : loadPopulate mkTemp P filename stack (some sel) json = Except.ok st') :
    st'.x_dist = Coord.one (arangeQ st'.absdata.rows)
  ∧ st'.y_dist = Coord.one (arangeQ st'.absdata.cols) := by
  match sel with
  | [] => simp at hlen
  | [s] => simp at hlen
  | s0 :: s1 :: rest =>
    have hne : ¬ ((s0 :: s1 :: rest).length = 1) := by simp
    simp only [loadPopulate, hne, if_false] at hpop
    injection hpop with h
    subst h
    exact ⟨rfl, rfl⟩

/-- Witness for C5: loading selections [0, 1] with samplePluginR
stitches two (1,2,1) cubes into a (2,2,1) cube, and the merged
object's x_dist and y_dist are arange over its row and column
extents. -/
theorem load_multi_reindexes_witness :
    sampleMergedStack.x_dist = Coord.one (arangeQ sampleMergedStack.absdata.rows)
  ∧ sampleMergedStack.y_dist = Coord.one (arangeQ sampleMergedStack.absdata.cols) :=
  load_multi_reindexes id samplePluginR "f.hdr" sampleStack [0, 1] none
    sampleMergedStack (by decide) rfl

/-- Claim C6: for every load call that populates the cube, whatever
the selection shape, load invokes the grid resampler on the populated
cube with the object's instrument coordinate arrays x_dist_instr and
y_dist_instr, stores the result in the separate absdata_interpolated
field, and leaves the original absdata field unmodified by the
resampling step: the final state differs from the populated state in
the absdata_interpolated field alone. -/
theorem load_always_resamples (gd : GDCall → List ℚ) (mkTemp : StackObject → StackObject)
    (ps : List Plugin) (filename : String) (stack : StackObject) (P : Plugin)
    (selection : Option (List Sel)) (json : Option Json) (st : StackObject) (interp : Cube)
    (hpop : loadPopulate mkTemp P filename stack selection json = Except.ok st)
    (hint : interpolate_absdata_flat gd st.absdata st.x_dist_instr st.y_dist_instr true
        = Except.ok interp) :
    load gd mkTemp ps filename stack (some P) selection json
      = Except.ok (some { st with absdata_interpolated := some interp }) := by
  simp [load, hpop, hint]

/-- Witness for C6: a whole-file load with samplePluginQ and a
constant resampler; the final object keeps the loaded cube in absdata
and carries the resampled cube in absdata_interpolated. -/
theorem load_always_resamples_witness :
    load (fun _ => [7]) id [] "f.hdr" sampleStack (some samplePluginQ) none none
      = Except.ok (some { sampleLoadedStack with
                          absdata_interpolated := some ⟨1, 1, 1, [[[7]]]⟩ }) :=
  load_always_resamples (fun _ => [7]) id [] "f.hdr" sampleStack samplePluginQ none none
    sampleLoadedStack ⟨1, 1, 1, [[[7]]]⟩ rfl rfl

end FilePlugins
